import Mathlib

set_option autoImplicit false

/-!
Shallow embedding of the frame-source module `lib/video.py` of the
aruco_tester repository.

The OpenCV capture layer (`cv2.VideoCapture`) is modelled explicitly:

* For live sources (`VideoStreamReader`), each call to `cap.grab()` is an
  externally supplied `GrabEvent` carrying whether the grab succeeded, the
  elapsed time the code would measure for it (in integer milliseconds, the
  unit the code converts to before comparing), and the outcome a subsequent
  `cap.retrieve()` would produce.  A run of the reader consumes a list of
  such events; `none` results model a loop that never terminates because
  the event trace ran out.
* For file sources (`VideoFileReader`), the capture is a `FileCap`: a
  current frame position, a total frame count, and the frame contents.
  `cap.read()` succeeds exactly on positions below the total, and
  `cap.set(CAP_PROP_POS_FRAMES, k)` rewrites the position.
* Frames are abstracted to natural numbers (pixel-identical frames are
  equal numbers).
* Python `round` is banker's rounding (round half to even); `pyRound`
  reproduces it on rationals.  Timing values that the code truncates or
  rounds to integer milliseconds enter the model already as integers.
-/

/-- Python's built-in `round` on rationals: nearest integer, ties to even. -/
def pyRound (x : ℚ) : ℤ :=
  if Int.fract x < 1/2 then ⌊x⌋
  else if 1/2 < Int.fract x then ⌊x⌋ + 1
  else if ⌊x⌋ % 2 = 0 then ⌊x⌋ else ⌊x⌋ + 1

/-- One `cap.grab()` call on a live source, with the retrieve outcome that
would follow it.  `timeMs` is the elapsed time of the grab as the code
measures it, converted to integer milliseconds. -/
structure GrabEvent where
  grabOk : Bool
  timeMs : ℤ
  retOk : Bool
  frame : Option ℕ
deriving DecidableEq

/-- Outcome of one `__next__` call: a returned frame, or the
`IOError("Error reading frames! Disconnected?")` raise. -/
inductive NextOutcome where
  | frame (f : Option ℕ)
  | ioError
deriving DecidableEq

/-- The `while True` grab loop inside `VideoStreamReader.read`
(`lib/video.py` lines 106-113): grab, time it, and break once
`time_taken_ms > min_read_time_ms` or the grab failed; otherwise discard
the grabbed frame and repeat.  Returns the event the loop broke on and the
unconsumed remainder of the trace; `none` if the trace is exhausted while
the loop is still discarding. -/
def VideoStreamReader.grabLoop (minMs : ℤ) : List GrabEvent → Option (GrabEvent × List GrabEvent)
  | [] => none
  | e :: rest =>
    if minMs < e.timeMs ∨ e.grabOk = false then some (e, rest)
    else VideoStreamReader.grabLoop minMs rest

/-- `VideoStreamReader.read` (`lib/video.py` lines 100-118): runs the grab
loop, then `rec_frame, frame = self.cap.retrieve() if rec_frame else
(rec_frame, None)`.  Returns the `(rec_frame, frame)` pair and the
remaining event trace. -/
def VideoStreamReader.read (minMs : ℤ) (evs : List GrabEvent) :
    Option ((Bool × Option ℕ) × List GrabEvent) :=
  (VideoStreamReader.grabLoop minMs evs).map fun er =>
    (if er.1.grabOk then (er.1.retOk, er.1.frame) else (false, none), er.2)

/-- `VideoStreamReader.__next__` (`lib/video.py` lines 70-86) for a live
source: call `read()`; if it failed, `self.cap.set(cv2.CAP_PROP_POS_FRAMES, 0)`
(which has no effect on a live event trace) and call `read()` once more;
raise `IOError` only if the second read also fails. -/
def VideoStreamReader.next (minMs : ℤ) (evs : List GrabEvent) :
    Option (NextOutcome × List GrabEvent) :=
  match VideoStreamReader.read minMs evs with
  | none => none
  | some ((readOk, f), rest) =>
    if readOk then some (.frame f, rest)
    else
      match VideoStreamReader.read minMs rest with
      | none => none
      | some ((readOk2, f2), rest2) =>
        if readOk2 then some (.frame f2, rest2) else some (.ioError, rest2)

/-- The `for N in range(max_frames_to_exhaust)` loop of
`VideoStreamReader.exhaust_buffered_frames` (`lib/video.py` lines 139-149),
over an infinite supply of grab events indexed by grab number.  `idx` is the
Python loop variable `N` for the current iteration, the second argument the
number of iterations left.  Returns the final value of `N`: the break index
when a grab takes at least the threshold, or the last index when the range
is exhausted.  `none` models the `assert rec_frame` failure on a failed
grab, and the `NameError` on `N` when the range was empty. -/
def VideoStreamReader.exhaustGo (th : ℤ) (ev : ℕ → GrabEvent) : ℕ → ℕ → Option ℕ
  | idx, 0 => if idx = 0 then none else some (idx - 1)
  | idx, rem + 1 =>
    if (ev idx).grabOk = false then none
    else if th ≤ (ev idx).timeMs then some idx
    else VideoStreamReader.exhaustGo th ev (idx + 1) rem

/-- `VideoStreamReader.exhaust_buffered_frames` (`lib/video.py` lines
122-152): computes `read_ms_threshold = round(0.85 * 1000.0 / video_fps)`
(the float product `0.85 * 1000.0` is exactly `850.0`, so rationals lose
nothing), runs the grab loop, and returns `had_buffered_frames = N > 0`
for the final loop index `N`.  `none` models the exceptions described at
`VideoStreamReader.exhaustGo`. -/
def VideoStreamReader.exhaust_buffered_frames (fps : ℚ) (ev : ℕ → GrabEvent)
    (maxFramesToExhaust : ℕ) : Option Bool :=
  (VideoStreamReader.exhaustGo (pyRound (0.85 * 1000.0 / fps)) ev 0 maxFramesToExhaust).map
    fun n => decide (0 < n)

/-- The `cv2.VideoCapture` of an opened video file: current frame position
(`CAP_PROP_POS_FRAMES`), total number of decodable frames (taken equal to
the `CAP_PROP_FRAME_COUNT` metadata), and the content of each frame. -/
structure FileCap where
  pos : ℕ
  total : ℕ
  frames : ℕ → ℕ

/-- `VideoFileReader.read` (`lib/video.py` lines 186-187), i.e. a plain
`cap.read()`: succeed with the frame at the current position and advance
by one while positions below `total` remain, otherwise fail. -/
def VideoFileReader.read (c : FileCap) : (Bool × Option ℕ) × FileCap :=
  if c.pos < c.total then ((true, some (c.frames c.pos)), { c with pos := c.pos + 1 })
  else ((false, none), c)

/-- `VideoStreamReader.__next__` as inherited by `VideoFileReader`
(`lib/video.py` lines 70-86), with `read` dispatching to the file override:
read; on failure seek to frame 0 and read once more; raise `IOError` only
if that retry also fails. -/
def VideoFileReader.next (c : FileCap) : NextOutcome × FileCap :=
  match VideoFileReader.read c with
  | ((true, f), c') => (.frame f, c')
  | ((false, _), c') =>
    match VideoFileReader.read { c' with pos := 0 } with
    | ((true, f), c'') => (.frame f, c'')
    | ((false, _), c'') => (.ioError, c'')

/-- Capture state after `k` successive `__next__` calls on a file source. -/
def VideoFileReader.advanceState (c : FileCap) : ℕ → FileCap
  | 0 => c
  | k + 1 => (VideoFileReader.next (VideoFileReader.advanceState c k)).2

/-- Outcome of the `(k+1)`-th `__next__` call on a file source. -/
def VideoFileReader.advanceResult (c : FileCap) (k : ℕ) : NextOutcome :=
  (VideoFileReader.next (VideoFileReader.advanceState c k)).1

/-- `VideoFileReader.get_playback_position` (`lib/video.py` lines 175-176):
`min(1.0, cap.get(CAP_PROP_POS_FRAMES) / self._total_frames)`.  Python
raises `ZeroDivisionError` when the stored total is zero, modelled by
`none`. -/
def VideoFileReader.get_playback_position (c : FileCap) : Option ℚ :=
  if c.total = 0 then none
  else some (min 1 ((c.pos : ℚ) / (c.total : ℚ)))

/-- `VideoFileReader.set_playback_position` (`lib/video.py` lines 180-182):
`cap.set(CAP_PROP_POS_FRAMES, round(self._total_frames * position_norm_01))`.
For the nonnegative arguments in scope `Int.toNat` is exact. -/
def VideoFileReader.set_playback_position (c : FileCap) (p : ℚ) : FileCap :=
  { c with pos := (pyRound ((c.total : ℚ) * p)).toNat }

/-- The facts about the outside world that
`VideoFileReader.is_valid_video_file` consults for a candidate source
string: whether the path exists, whether `cv2.VideoCapture` opens it, and
the `CAP_PROP_FRAME_COUNT` metadata it would report once opened. -/
structure CaptureWorld where
  pathExists : Bool
  opensAsVideo : Bool
  frameCount : ℚ

/-- `VideoFileReader.is_valid_video_file` (`lib/video.py` lines 197-215):
accept when the path exists and the capture opens; the reported frame
count is never consulted. -/
def VideoFileReader.is_valid_video_file (w : CaptureWorld) : Bool :=
  if w.pathExists = false then false else w.opensAsVideo

/-- Shape of the value a Python `read()` call returns: the
`(success, frame)` tuple the `FrameReader` protocol declares, or a bare
frame. -/
inductive PyReadValue where
  | pair (ok : Bool) (frame : Option ℕ)
  | bare (frame : ℕ)
deriving DecidableEq

/-- `ImageFileReader.read` (`lib/video.py` line 253): `return
self._image.copy()` — the copy of the fixed image itself, not a
`(success, frame)` tuple. -/
def ImageFileReader.read (image : ℕ) : PyReadValue :=
  .bare image

/-- The value shape produced by `VideoFileReader.read`. -/
def VideoFileReader.readValue (c : FileCap) : PyReadValue :=
  .pair (VideoFileReader.read c).1.1 (VideoFileReader.read c).1.2

/-- The value shape produced by `VideoStreamReader.read`. -/
def VideoStreamReader.readValue (minMs : ℤ) (evs : List GrabEvent) : Option PyReadValue :=
  (VideoStreamReader.read minMs evs).map fun r => .pair r.1.1 r.1.2

/-- Python `str.strip()` restricted to ASCII whitespace: drop whitespace
from both ends. -/
def pyStrip (s : String) : String :=
  String.mk (((s.data.dropWhile Char.isWhitespace).reverse.dropWhile Char.isWhitespace).reverse)

/-- Python `str.lower()` on ASCII strings. -/
def pyLower (s : String) : String :=
  String.mk (s.data.map Char.toLower)

/-- Python `str.isnumeric()` restricted to ASCII digit strings (the only
identifiers the claims involve): nonempty and all characters digits. -/
def pyIsNumeric (s : String) : Bool :=
  decide (s.data ≠ []) && s.data.all Char.isDigit

/-- The tag string returned by `make_video_reader`. -/
inductive SourceKind where
  | image
  | video
  | webcam
  | rtsp
deriving DecidableEq

/-- The outside-world facts `make_video_reader`'s probes consult: whether
a candidate string passes `ImageFileReader.is_valid_image_file`, and
whether it passes `VideoFileReader.is_valid_video_file`. -/
structure ProbeWorld where
  isImage : String → Bool
  isVideo : String → Bool

/-- `make_video_reader` (`lib/video.py` lines 389-414): strip the input,
map the aliases `webcam`/`cam` (case-insensitively) to "0", then probe in
order image → video file → numeric webcam → rtsp, first match winning.
The resolved source string is returned with the kind. -/
def make_video_reader (w : ProbeWorld) (video_source : String) : SourceKind × String :=
  let s1 := pyStrip video_source
  let s2 := if pyLower s1 = "webcam" ∨ pyLower s1 = "cam" then "0" else s1
  if w.isImage s2 then (.image, s2)
  else if w.isVideo s2 then (.video, s2)
  else if pyIsNumeric s2 then (.webcam, s2)
  else (.rtsp, s2)

/-! Helper lemmas shared by the claim theorems. -/

/-- Python rounding lands within half a unit of its argument. -/
theorem abs_pyRound_sub (x : ℚ) : |(pyRound x : ℚ) - x| ≤ 1/2 := by
  have hx := Int.floor_add_fract x
  have h0 : 0 ≤ Int.fract x := Int.fract_nonneg x
  have h1 : Int.fract x < 1 := Int.fract_lt_one x
  rw [pyRound]
  split_ifs with hlt hgt hev <;> rw [abs_le] <;> push_cast <;>
    constructor <;> linarith

/-- The threshold `exhaust_buffered_frames` computes at 30 fps. -/
theorem pyRound_threshold_30 : pyRound (0.85 * 1000.0 / 30) = 28 := by
  have h : ((0.85 : ℚ) * 1000.0 / 30) = 85/3 := by norm_num
  rw [h, pyRound]
  norm_num [Int.fract]

/-- The same threshold written as in the specification. -/
theorem pyRound_threshold_30' : pyRound ((0.85 : ℚ) * 1000 / 30) = 28 := by
  have h : ((0.85 : ℚ) * 1000 / 30) = 85/3 := by norm_num
  rw [h, pyRound]
  norm_num [Int.fract]

/-- C5: for a seekable file source with positive total frame count `T` and
every `p` in `[0, 1]`, `set_playback_position p` followed by
`get_playback_position` yields a value `v` with `|v - p| ≤ 1/T`: the seek
stores `round(T * p)` and the get returns the frame index over `T`,
clamped to at most 1. -/
theorem C5_set_then_get (c : FileCap) (p : ℚ) (hT : 0 < c.total)
    (hp0 : 0 ≤ p) (hp1 : p ≤ 1) :
    ∃ v, VideoFileReader.get_playback_position
        (VideoFileReader.set_playback_position c p) = some v ∧
      |v - p| ≤ 1 / (c.total : ℚ) := by
  have hTpos : (0:ℚ) < (c.total : ℚ) := by exact_mod_cast hT
  have habs' := abs_le.mp (abs_pyRound_sub ((c.total : ℚ) * p))
  have hTp0 : 0 ≤ (c.total : ℚ) * p := mul_nonneg hTpos.le hp0
  have hTpT : (c.total : ℚ) * p ≤ (c.total : ℚ) := by nlinarith
  have hr0 : 0 ≤ pyRound ((c.total : ℚ) * p) := by
    by_contra h
    push_neg at h
    have h2 : pyRound ((c.total : ℚ) * p) ≤ -1 := by omega
    have h3 : (pyRound ((c.total : ℚ) * p) : ℚ) ≤ -1 := by exact_mod_cast h2
    linarith [habs'.1]
  have hrT : (pyRound ((c.total : ℚ) * p) : ℚ) ≤ (c.total : ℚ) := by
    by_contra h
    push_neg at h
    have h2 : ((c.total : ℕ) : ℤ) + 1 ≤ pyRound ((c.total : ℚ) * p) := by
      have : ((c.total : ℕ) : ℤ) < pyRound ((c.total : ℚ) * p) := by exact_mod_cast h
      omega
    have h3 : ((c.total : ℚ)) + 1 ≤ (pyRound ((c.total : ℚ) * p) : ℚ) := by
      exact_mod_cast h2
    linarith [habs'.2]
  have hcast : (((pyRound ((c.total : ℚ) * p)).toNat : ℕ) : ℚ)
      = (pyRound ((c.total : ℚ) * p) : ℚ) := by
    exact_mod_cast congrArg (fun z : ℤ => (z : ℚ)) (Int.toNat_of_nonneg hr0)
  refine ⟨(pyRound ((c.total : ℚ) * p) : ℚ) / (c.total : ℚ), ?_, ?_⟩
  · rw [VideoFileReader.set_playback_position, VideoFileReader.get_playback_position]
    simp only
    rw [if_neg (by omega : ¬ c.total = 0)]
    rw [hcast, min_eq_right (by rw [div_le_one hTpos]; exact hrT)]
  · have hsplit : (pyRound ((c.total : ℚ) * p) : ℚ) / (c.total : ℚ) - p
        = ((pyRound ((c.total : ℚ) * p) : ℚ) - (c.total : ℚ) * p) / (c.total : ℚ) := by
      field_simp
    rw [hsplit, abs_div, abs_of_pos hTpos]
    calc |(pyRound ((c.total : ℚ) * p) : ℚ) - (c.total : ℚ) * p| / (c.total : ℚ)
        ≤ 1 / (c.total : ℚ) := by gcongr; linarith [abs_le.mpr habs']

/-- C5 witness: a 4-frame file sought to position 1/3 reports a position
within one frame-interval of 1/3. -/
theorem C5_witness :
    ∃ v, VideoFileReader.get_playback_position
        (VideoFileReader.set_playback_position ⟨0, 4, fun _ => 0⟩ (1/3)) = some v ∧
      |v - 1/3| ≤ 1 / ((4 : ℕ) : ℚ) :=
  C5_set_then_get ⟨0, 4, fun _ => 0⟩ (1/3) (by norm_num) (by norm_num) (by norm_num)

/-- C7 counterexample: a candidate whose path exists and whose capture
opens is accepted by `is_valid_video_file` even when the reported frame
count is 0 — no usable-frame-count condition is checked — and a file
reader whose stored total frame count is 0 makes `get_playback_position`
divide by zero rather than being well-defined. -/
theorem C7_counterexample :
    VideoFileReader.is_valid_video_file ⟨true, true, 0⟩ = true ∧
    ¬(0 < (CaptureWorld.mk true true 0).frameCount) ∧
    VideoFileReader.get_playback_position ⟨0, 0, fun _ => 0⟩ = none :=
  ⟨rfl, by norm_num, rfl⟩

/-- C7 amended: a candidate source is accepted as a seekable file source
exactly when the path exists and the underlying capture resource opens;
the reported total frame count is not consulted, so acceptance does not
guarantee a positive frame count. -/
theorem C7_amended_validation (w : CaptureWorld) :
    VideoFileReader.is_valid_video_file w = true ↔
      (w.pathExists = true ∧ w.opensAsVideo = true) := by
  rw [VideoFileReader.is_valid_video_file]
  cases hp : w.pathExists <;> simp

/-- C8: evaluating the three `read()` variants: the file and live-stream
variants return the `(success, frame)` pair the `FrameReader` protocol
declares, but `ImageFileReader.read` returns the bare image copy, not a
pair. -/
theorem C8_image_read_shape :
    ImageFileReader.read 7 = PyReadValue.bare 7 ∧
    VideoFileReader.readValue ⟨0, 1, fun _ => 7⟩ = PyReadValue.pair true (some 7) ∧
    VideoStreamReader.readValue 10 [⟨true, 20, true, some 7⟩]
      = some (PyReadValue.pair true (some 7)) :=
  ⟨rfl, rfl, rfl⟩

/-- C4 counterexample: when a decodable image file named "0" exists, the
image probe (which runs first) wins and `make_video_reader "0"` yields the
Image kind, not Webcam. -/
theorem C4_counterexample :
    make_video_reader ⟨fun s => s == "0", fun _ => false⟩ "0"
      = (SourceKind.image, "0") := by decide

/-- C4 amended: `make_video_reader` resolves "0" to the Webcam kind
provided the earlier image and video-file probes both reject "0"; the
probe order is image → video file → numeric webcam → stream, first match
winning, so a decodable image file named "0" takes precedence. -/
theorem C4_amended_resolve_zero (w : ProbeWorld)
    (h1 : w.isImage "0" = false) (h2 : w.isVideo "0" = false) :
    make_video_reader w "0" = (SourceKind.webcam, "0") := by
  have hbody : make_video_reader w "0"
      = if w.isImage "0" then (SourceKind.image, "0")
        else if w.isVideo "0" then (SourceKind.video, "0")
        else if pyIsNumeric "0" then (SourceKind.webcam, "0")
        else (SourceKind.rtsp, "0") := rfl
  rw [hbody, h1, h2]
  decide

/-- C4 witness: with no file named "0" decodable as image or video, "0"
resolves to the Webcam kind. -/
theorem C4_witness :
    make_video_reader ⟨fun _ => false, fun _ => false⟩ "0"
      = (SourceKind.webcam, "0") :=
  C4_amended_resolve_zero ⟨fun _ => false, fun _ => false⟩ rfl rfl

/-- C9: `make_video_reader` strips surrounding whitespace and maps the
aliases "webcam" and "cam" (case-insensitively) to "0" before probing, so
those aliases resolve exactly as the identifier "0" does. -/
theorem C9_webcam_aliases (w : ProbeWorld) (s : String)
    (h : pyLower (pyStrip s) = "webcam" ∨ pyLower (pyStrip s) = "cam") :
    make_video_reader w s = make_video_reader w "0" := by
  simp only [make_video_reader]
  rw [if_pos h]
  rw [if_neg (by decide :
    ¬(pyLower (pyStrip "0") = "webcam" ∨ pyLower (pyStrip "0") = "cam"))]
  rw [show pyStrip "0" = "0" from rfl]

/-- C9 witness: the padded mixed-case alias "  WebCam " resolves exactly
as "0" does. -/
theorem C9_witness :
    make_video_reader ⟨fun _ => false, fun _ => false⟩ "  WebCam "
      = make_video_reader ⟨fun _ => false, fun _ => false⟩ "0" :=
  C9_webcam_aliases ⟨fun _ => false, fun _ => false⟩ "  WebCam " (Or.inl (by decide))

/-- C1 counterexample: on a live source whose first read fails, `__next__`
does not raise immediately: it retries and returns the frame the second
read produces. -/
theorem C1_counterexample :
    VideoStreamReader.read 10 [⟨false, 0, false, none⟩, ⟨true, 20, true, some 7⟩]
      = some ((false, none), [⟨true, 20, true, some 7⟩]) ∧
    VideoStreamReader.next 10 [⟨false, 0, false, none⟩, ⟨true, 20, true, some 7⟩]
      = some (NextOutcome.frame (some 7), []) :=
  ⟨rfl, rfl⟩

/-- C1 amended: for a live source, `__next__` calls `read()`; on failure
it seeks the capture position to frame 0 (a no-op for live sources) and
calls `read()` exactly once more, raising the hard disconnect `IOError`
only if that retry also fails. -/
theorem C1_amended_next_retries (minMs : ℤ) (evs rest rest2 : List GrabEvent)
    (f1 f2 : Option ℕ) (b : Bool)
    (h1 : VideoStreamReader.read minMs evs = some ((false, f1), rest))
    (h2 : VideoStreamReader.read minMs rest = some ((b, f2), rest2)) :
    VideoStreamReader.next minMs evs
      = some (if b then NextOutcome.frame f2 else NextOutcome.ioError, rest2) := by
  rw [VideoStreamReader.next, h1]
  simp only [Bool.false_eq_true, if_false]
  rw [h2]
  cases b <;> simp

/-- C1 witness: a failing first read followed by a successful retry makes
`__next__` return the retried frame. -/
theorem C1_witness :
    VideoStreamReader.next 10 [⟨false, 0, false, none⟩, ⟨true, 20, true, some 7⟩]
      = some (NextOutcome.frame (some 7), []) := by
  simpa using C1_amended_next_retries 10
    [⟨false, 0, false, none⟩, ⟨true, 20, true, some 7⟩]
    [⟨true, 20, true, some 7⟩] [] none (some 7) true rfl rfl

/-- C3 counterexample: a fetch taking exactly the 10 ms threshold — hence
at least the threshold — is nevertheless discarded, and the following
fetch is the one decoded. -/
theorem C3_counterexample :
    (10 : ℤ) ≤ (GrabEvent.mk true 10 true (some 1)).timeMs ∧
    VideoStreamReader.read 10 [⟨true, 10, true, some 1⟩, ⟨true, 20, true, some 2⟩]
      = some ((true, some 2), []) :=
  ⟨by norm_num, rfl⟩

/-- C3 amended: whenever the live-source `read()` loop stops on event `e`,
every earlier fetch succeeded in at most the threshold time (those frames
are discarded and fetching repeats), the stopping fetch took strictly more
than the threshold or failed, and `read()` returns `(false, none)` without
decoding on fetch failure and the decoded retrieve result otherwise. -/
theorem C3_amended_read_loop (minMs : ℤ) :
    ∀ (evs rest : List GrabEvent) (e : GrabEvent),
      VideoStreamReader.grabLoop minMs evs = some (e, rest) →
      (∃ pre, evs = pre ++ e :: rest ∧ ∀ x ∈ pre, x.grabOk = true ∧ x.timeMs ≤ minMs) ∧
      (minMs < e.timeMs ∨ e.grabOk = false) ∧
      (e.grabOk = false → VideoStreamReader.read minMs evs = some ((false, none), rest)) ∧
      (e.grabOk = true → VideoStreamReader.read minMs evs = some ((e.retOk, e.frame), rest)) := by
  intro evs
  induction evs with
  | nil => intro rest e h; simp [VideoStreamReader.grabLoop] at h
  | cons a evs ih =>
    intro rest e h
    rw [VideoStreamReader.grabLoop] at h
    by_cases hstop : minMs < a.timeMs ∨ a.grabOk = false
    · rw [if_pos hstop] at h
      obtain ⟨rfl, rfl⟩ : a = e ∧ evs = rest := by
        simpa [Prod.ext_iff] using h
      refine ⟨⟨[], by simp, by simp⟩, hstop, ?_, ?_⟩
      · intro hfail
        rw [VideoStreamReader.read, VideoStreamReader.grabLoop, if_pos hstop]
        simp [hfail]
      · intro hok
        rw [VideoStreamReader.read, VideoStreamReader.grabLoop, if_pos hstop]
        simp [hok]
    · rw [if_neg hstop] at h
      push_neg at hstop
      have hsok : a.grabOk = true := by
        cases hga : a.grabOk
        · exact absurd hga hstop.2
        · rfl
      have hreadcons : VideoStreamReader.read minMs (a :: evs)
          = VideoStreamReader.read minMs evs := by
        rw [VideoStreamReader.read, VideoStreamReader.read,
          VideoStreamReader.grabLoop, if_neg (by push_neg; exact hstop)]
      obtain ⟨⟨pre, hpre, hprop⟩, hstop2, hfail2, hok2⟩ := ih rest e h
      refine ⟨⟨a :: pre, by simp [hpre], ?_⟩, hstop2, ?_, ?_⟩
      · intro x hx
        rcases List.mem_cons.mp hx with hx | hx
        · exact hx ▸ ⟨hsok, hstop.1⟩
        · exact hprop x hx
      · intro hfail
        rw [hreadcons]
        exact hfail2 hfail
      · intro hok
        rw [hreadcons]
        exact hok2 hok

/-- C3 witness: on a trace with one fast fetch and then a failing fetch,
the loop stops on the failing fetch. -/
theorem C3_witness :
    (10 : ℤ) < (GrabEvent.mk false 0 false none).timeMs ∨
      (GrabEvent.mk false 0 false none).grabOk = false :=
  ((C3_amended_read_loop 10 [⟨true, 5, true, some 1⟩, ⟨false, 0, false, none⟩]
    [] ⟨false, 0, false, none⟩ rfl).2).1

/-- After `k ≤ N` advance calls on a fresh `N`-frame file, the capture
position is `k`. -/
theorem advanceState_eq (N : ℕ) (fr : ℕ → ℕ) :
    ∀ k, k ≤ N → VideoFileReader.advanceState ⟨0, N, fr⟩ k = ⟨k, N, fr⟩ := by
  intro k
  induction k with
  | zero => intro _; rfl
  | succ k ih =>
    intro hk
    have hkN : k < N := Nat.lt_of_succ_le hk
    rw [VideoFileReader.advanceState, ih hkN.le]
    simp [VideoFileReader.next, VideoFileReader.read, hkN]

/-- C6: on a finite file source with `N > 0` frames starting at frame 0,
`advance()` decodes the frames sequentially; the `(N+1)`-th call finds the
file exhausted, seeks to frame 0, retries once, and returns the first
frame again; and when even the retry fails (a zero-frame capture) the
single retry is followed by the fatal `IOError`. -/
theorem C6_advance_loops (N : ℕ) (fr : ℕ → ℕ) (hN : 0 < N) :
    (∀ k, k < N →
      VideoFileReader.advanceResult ⟨0, N, fr⟩ k = NextOutcome.frame (some (fr k))) ∧
    VideoFileReader.advanceResult ⟨0, N, fr⟩ N = NextOutcome.frame (some (fr 0)) ∧
    (∀ c : FileCap, c.total = 0 → (VideoFileReader.next c).1 = NextOutcome.ioError) := by
  refine ⟨?_, ?_, ?_⟩
  · intro k hk
    rw [VideoFileReader.advanceResult, advanceState_eq N fr k hk.le]
    simp [VideoFileReader.next, VideoFileReader.read, hk]
  · rw [VideoFileReader.advanceResult, advanceState_eq N fr N le_rfl]
    simp [VideoFileReader.next, VideoFileReader.read, hN]
  · intro c hc
    simp [VideoFileReader.next, VideoFileReader.read, hc]

/-- C6 witness: on a 2-frame file the third advance call returns frame 0
again. -/
theorem C6_witness :
    VideoFileReader.advanceResult ⟨0, 2, fun i => i + 100⟩ 2
      = NextOutcome.frame (some (0 + 100)) :=
  (C6_advance_loops 2 (fun i => i + 100) (by norm_num)).2.1

/-- The exhaust loop produces a value whenever every grab succeeds and at
least one iteration runs. -/
theorem exhaustGo_isSome (th : ℤ) (ev : ℕ → GrabEvent)
    (hok : ∀ i, (ev i).grabOk = true) :
    ∀ rem idx, 1 ≤ idx + rem →
      (VideoStreamReader.exhaustGo th ev idx rem).isSome = true := by
  intro rem
  induction rem with
  | zero =>
    intro idx h
    rw [VideoStreamReader.exhaustGo, if_neg (by omega)]
    rfl
  | succ rem ih =>
    intro idx h
    rw [VideoStreamReader.exhaustGo]
    rw [if_neg (by simp [hok idx])]
    split
    · rfl
    · exact ih (idx + 1) (by omega)

/-- C10: with every grab succeeding, `exhaust_buffered_frames` terminates
with a boolean for every `max_frames_to_exhaust ≥ 1`, while a call with
`max_frames_to_exhaust = 0` fails (the loop variable `N` consulted after
the loop is unbound) instead of returning "no backlog found". -/
theorem C10_exhaust_termination (fps : ℚ) (ev : ℕ → GrabEvent) (maxF : ℕ)
    (hmax : 1 ≤ maxF) (hok : ∀ i, (ev i).grabOk = true) :
    (VideoStreamReader.exhaust_buffered_frames fps ev maxF).isSome = true ∧
    VideoStreamReader.exhaust_buffered_frames fps ev 0 = none := by
  constructor
  · rw [VideoStreamReader.exhaust_buffered_frames]
    obtain ⟨n, hn⟩ := Option.isSome_iff_exists.mp
      (exhaustGo_isSome (pyRound (0.85 * 1000.0 / fps)) ev hok maxF 0 (by omega))
    rw [hn]
    rfl
  · rfl

/-- C10 witness: at 30 fps with one always-succeeding slow grab the call
with bound 1 returns a boolean and the call with bound 0 fails. -/
theorem C10_witness :
    (VideoStreamReader.exhaust_buffered_frames 30 (fun _ => ⟨true, 50, true, none⟩) 1).isSome = true ∧
    VideoStreamReader.exhaust_buffered_frames 30 (fun _ => ⟨true, 50, true, none⟩) 0 = none :=
  C10_exhaust_termination 30 (fun _ => ⟨true, 50, true, none⟩) 1 (by norm_num) (fun _ => rfl)

/-- When the `j`-th fetch (0-indexed) is the first one at or above the
threshold and all fetches up to it succeed, the exhaust loop breaks with
final index `j`. -/
theorem exhaustGo_break (th : ℤ) (ev : ℕ → GrabEvent) :
    ∀ j rem idx, j < rem →
      (∀ i, i < j → (ev (idx + i)).grabOk = true ∧ (ev (idx + i)).timeMs < th) →
      (ev (idx + j)).grabOk = true → th ≤ (ev (idx + j)).timeMs →
      VideoStreamReader.exhaustGo th ev idx rem = some (idx + j) := by
  intro j
  induction j with
  | zero =>
    intro rem idx hrem _ hok hth
    obtain ⟨rem', rfl⟩ : ∃ rem', rem = rem' + 1 := ⟨rem - 1, by omega⟩
    rw [Nat.add_zero] at hok hth
    rw [VideoStreamReader.exhaustGo, if_neg (by simp [hok]), if_pos hth, Nat.add_zero]
  | succ j ih =>
    intro rem idx hrem hpre hok hth
    obtain ⟨rem', rfl⟩ : ∃ rem', rem = rem' + 1 := ⟨rem - 1, by omega⟩
    have h0 := hpre 0 (Nat.succ_pos j)
    rw [Nat.add_zero] at h0
    rw [VideoStreamReader.exhaustGo, if_neg (by simp [h0.1]), if_neg (by omega)]
    have hres := ih rem' (idx + 1) (by omega)
      (fun i hi => by
        have := hpre (i + 1) (by omega)
        rwa [show idx + (i + 1) = idx + 1 + i by omega] at this)
      (by rwa [show idx + 1 + j = idx + (j + 1) by omega])
      (by rwa [show idx + 1 + j = idx + (j + 1) by omega])
    rw [hres]
    congr 1
    omega

/-- When every available iteration's fetch succeeds below the threshold,
the exhaust loop runs to its iteration cap and the final index is the last
one of the range. -/
theorem exhaustGo_cap (th : ℤ) (ev : ℕ → GrabEvent) :
    ∀ rem idx,
      (∀ i, i < rem → (ev (idx + i)).grabOk = true ∧ (ev (idx + i)).timeMs < th) →
      VideoStreamReader.exhaustGo th ev idx rem
        = if idx + rem = 0 then none else some (idx + rem - 1) := by
  intro rem
  induction rem with
  | zero =>
    intro idx _
    rw [VideoStreamReader.exhaustGo, Nat.add_zero]
  | succ rem ih =>
    intro idx hpre
    have h0 := hpre 0 (Nat.succ_pos rem)
    rw [Nat.add_zero] at h0
    rw [VideoStreamReader.exhaustGo, if_neg (by simp [h0.1]), if_neg (by omega)]
    rw [ih (idx + 1)
      (fun i hi => by
        have := hpre (i + 1) (by omega)
        rwa [show idx + (i + 1) = idx + 1 + i by omega] at this)]
    rw [if_neg (by omega), if_neg (by omega)]
    congr 1
    omega

/-- C2 counterexample: with `max_frames_to_exhaust = 1` and a successful
fetch below the threshold, one buffered frame is discarded before the loop
stops at its iteration cap, yet the call returns "no backlog found". -/
theorem C2_counterexample :
    VideoStreamReader.exhaust_buffered_frames 30 (fun _ => ⟨true, 0, true, none⟩) 1
      = some false ∧
    (GrabEvent.mk true 0 true none).grabOk = true ∧
    (GrabEvent.mk true 0 true none).timeMs < pyRound ((0.85 : ℚ) * 1000 / 30) := by
  refine ⟨?_, rfl, ?_⟩
  · rw [VideoStreamReader.exhaust_buffered_frames, pyRound_threshold_30]
    rfl
  · rw [pyRound_threshold_30']
    norm_num

/-- C2 amended: with all grabs succeeding, the per-frame threshold is
`round(0.85 × 1000 / fps)` ms; the discard loop stops at the first fetch
measuring at least that threshold, returning true exactly when that stop
index is positive (at least one buffered frame discarded); but when no
fetch reaches the threshold the loop stops only at the
`max_frames_to_exhaust` cap and returns whether the final loop index
`max_frames_to_exhaust - 1` is positive, undercounting the discards by
one. -/
theorem C2_amended_exhaust (fps : ℚ) (ev : ℕ → GrabEvent) (maxF j : ℕ)
    (hok : ∀ i, i < maxF → (ev i).grabOk = true) :
    (j < maxF → (∀ i, i < j → (ev i).timeMs < pyRound (0.85 * 1000 / fps)) →
       pyRound (0.85 * 1000 / fps) ≤ (ev j).timeMs →
       VideoStreamReader.exhaust_buffered_frames fps ev maxF = some (decide (0 < j))) ∧
    ((∀ i, i < maxF → (ev i).timeMs < pyRound (0.85 * 1000 / fps)) → 1 ≤ maxF →
       VideoStreamReader.exhaust_buffered_frames fps ev maxF = some (decide (1 < maxF))) := by
  have hthr : pyRound (0.85 * 1000.0 / fps) = pyRound ((0.85 : ℚ) * 1000 / fps) := by
    norm_num
  constructor
  · intro hj hfast hslow
    rw [VideoStreamReader.exhaust_buffered_frames, hthr]
    rw [exhaustGo_break (pyRound ((0.85 : ℚ) * 1000 / fps)) ev j maxF 0 hj
      (fun i hi => by simpa using ⟨hok i (by omega), hfast i hi⟩)
      (by simpa using hok j hj) (by simpa using hslow)]
    simp
  · intro hfast hmax
    rw [VideoStreamReader.exhaust_buffered_frames, hthr]
    rw [exhaustGo_cap (pyRound ((0.85 : ℚ) * 1000 / fps)) ev maxF 0
      (fun i hi => by simpa using ⟨hok i hi, hfast i hi⟩)]
    rw [if_neg (by omega)]
    show some (decide (0 < 0 + maxF - 1)) = some (decide (1 < maxF))
    congr 1
    simp only [decide_eq_decide]
    omega

/-- C2 witness: at 30 fps, a first fetch at 50 ms (at least the 28 ms
threshold) stops the loop immediately and reports no backlog. -/
theorem C2_witness :
    VideoStreamReader.exhaust_buffered_frames 30 (fun _ => ⟨true, 50, true, none⟩) 1
      = some false := by
  have h := (C2_amended_exhaust 30 (fun _ => ⟨true, 50, true, none⟩) 1 0
    (fun i _ => rfl)).1 (by omega) (fun i hi => absurd hi (by omega))
    (by rw [pyRound_threshold_30']; norm_num)
  simpa using h
